import Mathlib

/-!
Shallow embedding of the ddht v5.1 client core (ddht/v5_1/client.py,
ddht/v5_1/envelope.py, ddht/v5_1/messages.py) together with the external
collaborators the spec treats as oracles (decode_packet, to_wire_bytes,
partition_enrs, the dispatcher's channel and timeout machinery).

Pure functions of the source become Lean functions; the stateful client
facade becomes explicit state passing over `ClientState`; fallible paths
return `Except`.  Machine integers are `Nat` with explicit `% 2 ^ 32`
where the source wraps.
-/

set_option linter.unusedVariables false

/-! ## Data model (spec section 3, ddht.typing / ddht.endpoint / ddht.enr) -/

/-- NodeID: opaque 32-byte identifier, modelled as a natural number. -/
abbrev NodeID := Nat

/-- Raw byte strings, modelled as lists of byte values. -/
abbrev Bytes := List Nat

/-- Endpoint: `(ip_address, udp_port)` pair; both components opaque here. -/
structure Endpoint where
  ip_address : Nat
  port : Nat
deriving DecidableEq, Repr

/-- ENR: opaque validated record.  `size` stands for the encoded byte length
`len(rlp.encode(enr))` that `partition_enrs` measures. -/
structure ENR where
  node_id : NodeID
  sequence_number : Nat
  size : Nat
deriving DecidableEq, Repr

/-! ## Envelope stage (ddht/v5_1/envelope.py)

The packet type and its codec are external (`ddht.v5_1.packets`), so both
appear as parameters: a decode oracle that may fail with a validation
error and a serialization function `to_wire_bytes`. -/

/-- InboundDatagram: `(bytes, sender Endpoint)` (ddht.datagram). -/
structure InboundDatagram where
  datagram : Bytes
  sender_endpoint : Endpoint
deriving DecidableEq, Repr

/-- OutboundDatagram: `(bytes, receiver Endpoint)` (ddht.datagram). -/
structure OutboundDatagram where
  datagram : Bytes
  receiver_endpoint : Endpoint
deriving DecidableEq, Repr

/-- eth_utils.ValidationError raised by `decode_packet` on a malformed datagram. -/
structure ValidationError where
deriving DecidableEq, Repr

/-- InboundEnvelope: a decoded packet plus the datagram's source endpoint
(envelope.py lines 17-25). -/
structure InboundEnvelope (Packet : Type) where
  packet : Packet
  sender_endpoint : Endpoint
deriving DecidableEq, Repr

/-- OutboundEnvelope: a packet plus the receiver endpoint (envelope.py lines 28-36). -/
structure OutboundEnvelope (Packet : Type) where
  packet : Packet
  receiver_endpoint : Endpoint
deriving DecidableEq, Repr

/-- PacketDecoder (envelope.py lines 42-67): for each inbound datagram, try
`decode_packet(datagram, local_node_id)`; on ValidationError log a warning and
drop the datagram, otherwise forward one `InboundEnvelope(packet, endpoint)`.
The consumed channel contents are the input list, the forwarded channel
contents are the output list. -/
def PacketDecoder {Packet : Type}
    (decode_packet : Bytes → NodeID → Except ValidationError Packet)
    (local_node_id : NodeID) :
    List InboundDatagram → List (InboundEnvelope Packet)
  | [] => []
  | d :: rest =>
    match decode_packet d.datagram local_node_id with
    | Except.error _ => PacketDecoder decode_packet local_node_id rest
    | Except.ok packet =>
      InboundEnvelope.mk packet d.sender_endpoint ::
        PacketDecoder decode_packet local_node_id rest

/-- PacketEncoder (envelope.py lines 70-83): each outbound envelope becomes
one `OutboundDatagram(packet.to_wire_bytes(), endpoint)`, in order. -/
def PacketEncoder {Packet : Type} (to_wire_bytes : Packet → Bytes) :
    List (OutboundEnvelope Packet) → List OutboundDatagram
  | [] => []
  | e :: rest =>
    OutboundDatagram.mk (to_wire_bytes e.packet) e.receiver_endpoint ::
      PacketEncoder to_wire_bytes rest

/-! ## Envelope stage theorems -/

/-- C5: for every inbound datagram consumed by PacketDecoder, a datagram on
which `decode_packet` fails with a validation error is discarded and no error
propagates out of the decoder (the decoder is a total function continuing with
the remaining datagrams), while a datagram on which decoding succeeds yields
exactly one InboundEnvelope carrying the decoded packet and the datagram's
source endpoint, in input order: the output is exactly the filter-map of the
decode oracle over the consumed datagrams. -/
theorem packet_decoder_discards_invalid_forwards_valid
    (Packet : Type)
    (decode_packet : Bytes → NodeID → Except ValidationError Packet)
    (local_node_id : NodeID) (datagrams : List InboundDatagram) :
    PacketDecoder decode_packet local_node_id datagrams =
      datagrams.filterMap (fun d =>
        match decode_packet d.datagram local_node_id with
        | Except.error _ => none
        | Except.ok packet => some (InboundEnvelope.mk packet d.sender_endpoint)) := by
  induction datagrams with
  | nil => rfl
  | cons d rest ih =>
    simp only [PacketDecoder, List.filterMap_cons]
    cases decode_packet d.datagram local_node_id <;> simp [ih]

/-- C6: PacketEncoder emits exactly one OutboundDatagram per consumed
OutboundEnvelope, equal to `(packet.to_wire_bytes(), receiver_endpoint)`,
in the order the envelopes were received. -/
theorem packet_encoder_one_datagram_per_envelope
    (Packet : Type) (to_wire_bytes : Packet → Bytes)
    (envelopes : List (OutboundEnvelope Packet)) :
    PacketEncoder to_wire_bytes envelopes =
      envelopes.map (fun e =>
        OutboundDatagram.mk (to_wire_bytes e.packet) e.receiver_endpoint) := by
  induction envelopes with
  | nil => rfl
  | cons e rest ih => simp [PacketEncoder, ih]

/-! ## Message type registry (ddht/v5_1/messages.py)

The registry is embedded structurally: each registered class contributes its
`message_type` wire identifier and its ordered `fields` tuple of
(field name, RLP sedes) pairs, exactly as declared in messages.py. -/

/-- Field names occurring in the `fields` declarations of messages.py and in
the spec's wire-format table. -/
inductive FieldName where
  | request_id
  | enr_seq
  | packet_ip
  | packet_port
  | distance
  | distances
  | total
  | enrs
  | protocol
  | request
  | response
  | topic
  | enr
  | ticket
  | wait_time
deriving DecidableEq, Repr

/-- RLP sedes objects occurring in messages.py and in the spec's table. -/
inductive Sedes where
  | big_endian_int
  | binary
  | ip_address_sedes
  | topic_sedes
  | enr_sedes
  | countable_list_enr
  | countable_list_int
deriving DecidableEq, Repr

/-- One registered message variant: wire identifier plus ordered field list. -/
structure MessageDef where
  message_type : Nat
  fields : List (FieldName × Sedes)
deriving DecidableEq, Repr

/-- v51_registry (messages.py lines 12-104): the ten registered message
classes in registration order, with their declared `message_type` and
`fields`, transcribed from the source. -/
def v51_registry : List MessageDef := [
  MessageDef.mk 1 [(FieldName.request_id, Sedes.big_endian_int),
                   (FieldName.enr_seq, Sedes.big_endian_int)],
  MessageDef.mk 2 [(FieldName.request_id, Sedes.big_endian_int),
                   (FieldName.enr_seq, Sedes.big_endian_int),
                   (FieldName.packet_ip, Sedes.ip_address_sedes),
                   (FieldName.packet_port, Sedes.big_endian_int)],
  MessageDef.mk 3 [(FieldName.request_id, Sedes.big_endian_int),
                   (FieldName.distance, Sedes.big_endian_int)],
  MessageDef.mk 4 [(FieldName.request_id, Sedes.big_endian_int),
                   (FieldName.total, Sedes.big_endian_int),
                   (FieldName.enrs, Sedes.countable_list_enr)],
  MessageDef.mk 5 [(FieldName.request_id, Sedes.big_endian_int),
                   (FieldName.protocol, Sedes.binary),
                   (FieldName.request, Sedes.binary)],
  MessageDef.mk 6 [(FieldName.request_id, Sedes.big_endian_int),
                   (FieldName.response, Sedes.binary)],
  MessageDef.mk 7 [(FieldName.request_id, Sedes.big_endian_int),
                   (FieldName.topic, Sedes.topic_sedes),
                   (FieldName.enr, Sedes.enr_sedes),
                   (FieldName.ticket, Sedes.binary)],
  MessageDef.mk 8 [(FieldName.request_id, Sedes.big_endian_int),
                   (FieldName.ticket, Sedes.binary),
                   (FieldName.wait_time, Sedes.big_endian_int)],
  MessageDef.mk 9 [(FieldName.request_id, Sedes.big_endian_int),
                   (FieldName.topic, Sedes.binary)],
  MessageDef.mk 10 [(FieldName.request_id, Sedes.big_endian_int),
                    (FieldName.topic, Sedes.topic_sedes)]
]

/-- Modelled from the spec: the message wire-format table of section 6
("RLP field order is binding"), absent from src as a single artifact.  It
differs from `v51_registry` only in the FindNode entry, whose second field
the table gives as a list `distances[]`. -/
def spec_wire_table : List MessageDef := [
  MessageDef.mk 1 [(FieldName.request_id, Sedes.big_endian_int),
                   (FieldName.enr_seq, Sedes.big_endian_int)],
  MessageDef.mk 2 [(FieldName.request_id, Sedes.big_endian_int),
                   (FieldName.enr_seq, Sedes.big_endian_int),
                   (FieldName.packet_ip, Sedes.ip_address_sedes),
                   (FieldName.packet_port, Sedes.big_endian_int)],
  MessageDef.mk 3 [(FieldName.request_id, Sedes.big_endian_int),
                   (FieldName.distances, Sedes.countable_list_int)],
  MessageDef.mk 4 [(FieldName.request_id, Sedes.big_endian_int),
                   (FieldName.total, Sedes.big_endian_int),
                   (FieldName.enrs, Sedes.countable_list_enr)],
  MessageDef.mk 5 [(FieldName.request_id, Sedes.big_endian_int),
                   (FieldName.protocol, Sedes.binary),
                   (FieldName.request, Sedes.binary)],
  MessageDef.mk 6 [(FieldName.request_id, Sedes.big_endian_int),
                   (FieldName.response, Sedes.binary)],
  MessageDef.mk 7 [(FieldName.request_id, Sedes.big_endian_int),
                   (FieldName.topic, Sedes.topic_sedes),
                   (FieldName.enr, Sedes.enr_sedes),
                   (FieldName.ticket, Sedes.binary)],
  MessageDef.mk 8 [(FieldName.request_id, Sedes.big_endian_int),
                   (FieldName.ticket, Sedes.binary),
                   (FieldName.wait_time, Sedes.big_endian_int)],
  MessageDef.mk 9 [(FieldName.request_id, Sedes.big_endian_int),
                   (FieldName.topic, Sedes.binary)],
  MessageDef.mk 10 [(FieldName.request_id, Sedes.big_endian_int),
                    (FieldName.topic, Sedes.topic_sedes)]
]

/-- C8: the registry's ten variants carry wire identifiers 1..10 as the spec's
table lists them, and nine of the ten field lists match the table exactly; but
the variant with wire identifier 3 (FindNode) declares its second field as a
single big-endian integer named `distance`, not the list `distances[]` the
claim states, so the registry as a whole differs from the spec table precisely
there.  This evaluates the code at the failing input (message_type 3). -/
theorem find_node_registry_field_divergence :
    v51_registry.map MessageDef.message_type = [1, 2, 3, 4, 5, 6, 7, 8, 9, 10] ∧
    (v51_registry.filter (fun d => d.message_type == 3)).map MessageDef.fields =
      [[(FieldName.request_id, Sedes.big_endian_int),
        (FieldName.distance, Sedes.big_endian_int)]] ∧
    (spec_wire_table.filter (fun d => d.message_type == 3)).map MessageDef.fields =
      [[(FieldName.request_id, Sedes.big_endian_int),
        (FieldName.distances, Sedes.countable_list_int)]] ∧
    v51_registry.filter (fun d => d.message_type ≠ 3) =
      spec_wire_table.filter (fun d => d.message_type ≠ 3) ∧
    v51_registry ≠ spec_wire_table := by
  refine ⟨rfl, rfl, rfl, rfl, ?_⟩
  decide

/-! ## Client facade message construction (ddht/v5_1/client.py)

The message union below transcribes the constructor calls made by client.py
(`PingMessage(request_id, enr_seq)`, `FindNodeMessage(request_id, distances)`,
and so on).  The client's interaction with the dispatcher is explicit state
passing over `ClientState`: `send_message` is fire-and-forget (it appends to
the outbound message channel), and the request-id reservation machinery is
modelled from the spec because ddht/v5_1/dispatcher.py is not under src. -/

/-- Message variants as constructed by client.py's send operations. -/
inductive Message where
  | ping (request_id : Nat) (enr_seq : Nat)
  | pong (request_id : Nat) (enr_seq : Nat) (packet_ip : Nat) (packet_port : Nat)
  | findNode (request_id : Nat) (distances : List Nat)
  | foundNodes (request_id : Nat) (total : Nat) (enrs : List ENR)
  | talkRequest (request_id : Nat) (protocol : Bytes) (request : Bytes)
  | talkResponse (request_id : Nat) (response : Bytes)
  | registerTopic (request_id : Nat) (topic : Bytes) (enr : ENR) (ticket : Bytes)
  | ticket (request_id : Nat) (ticket_bytes : Bytes) (wait_time : Nat)
  | registrationConfirmation (request_id : Nat) (topic : Bytes)
  | topicQuery (request_id : Nat) (topic : Bytes)
deriving DecidableEq, Repr

/-- AnyOutboundMessage (ddht.base_message): message, receiver endpoint,
receiver node id. -/
structure OutboundMessage where
  message : Message
  receiver_endpoint : Endpoint
  receiver_node_id : NodeID
deriving DecidableEq, Repr

/-- Client-visible state threaded through the facade's send operations:
the local ENR's current sequence number, the dispatcher's per-peer request-id
reservations, the randomness stream feeding `reserve_request_id`, and the
contents of the outbound message channel. -/
structure ClientState where
  enr_seq : Nat
  reserved : List (NodeID × Nat)
  rng : List Nat
  outbound : List OutboundMessage
deriving DecidableEq, Repr

/-- Request ids currently reserved for a given peer. -/
def reservedFor (st : ClientState) (node_id : NodeID) : List Nat :=
  st.reserved.filterMap (fun p => if p.1 = node_id then some p.2 else none)

/-- Modelled from the spec: the fallback of `reserve_request_id`'s allocation
strategy, incrementing modulo 2^32 from a starting candidate until an id not
yet taken is found (the fuel bound `taken.length + 1` always suffices). -/
def freshFrom (taken : List Nat) (candidate : Nat) : Nat → Nat
  | 0 => candidate % 2 ^ 32
  | fuel + 1 =>
    if candidate % 2 ^ 32 ∈ taken then freshFrom taken (candidate + 1) fuel
    else candidate % 2 ^ 32

/-- Modelled from the spec: draw a random 32-bit integer from the randomness
stream; on collision with a reserved id redraw, bounding retries to 10 and
otherwise incrementing modulo 2^32.  Returns the chosen id and the remaining
randomness stream. -/
def drawRequestId (taken : List Nat) : Nat → List Nat → Nat × List Nat
  | 0, rng => (freshFrom taken (rng.headD 0 + 1) (taken.length + 1), rng.drop 1)
  | _ + 1, [] => (freshFrom taken 0 (taken.length + 1), [])
  | retries + 1, r :: rest =>
    if r % 2 ^ 32 ∈ taken then drawRequestId taken retries rest
    else (r % 2 ^ 32, rest)

/-- Modelled from the spec: `Dispatcher.reserve_request_id(peer)` returns an
integer not currently reserved for that peer and records the reservation;
release is scoped to the caller's exit (dispatcher.py is not under src). -/
def reserve_request_id (st : ClientState) (node_id : NodeID) : Nat × ClientState :=
  let drawn := drawRequestId (reservedFor st node_id) 10 st.rng
  (drawn.1, ClientState.mk st.enr_seq ((node_id, drawn.1) :: st.reserved) drawn.2 st.outbound)

/-- Modelled from the spec: the scoped release of a request-id reservation on
subscriber exit. -/
def release_request_id (st : ClientState) (node_id : NodeID) (rid : Nat) : ClientState :=
  ClientState.mk st.enr_seq
    (st.reserved.eraseP (fun p => p.1 == node_id && p.2 == rid)) st.rng st.outbound

/-- Modelled from the spec: `Dispatcher.send_message` is fire-and-forget; it
pushes the outbound message onto the outbound message channel. -/
def send_message (st : ClientState) (message : OutboundMessage) : ClientState :=
  ClientState.mk st.enr_seq st.reserved st.rng (st.outbound ++ [message])

/-- Client._get_request_id (client.py lines 170-182) fused with the body each
send operation runs inside the `with` block: an explicit request id is used
verbatim through `nullcontext` (no reservation, nothing released on exit);
`None` reserves a fresh id, sends, and releases the reservation on scope exit.
Returns the request id used and the final state. -/
def with_request_id (st : ClientState) (endpoint : Endpoint) (node_id : NodeID)
    (request_id : Option Nat) (mk : Nat → Message) : Nat × ClientState :=
  match request_id with
  | some rid =>
    (rid, send_message st (OutboundMessage.mk (mk rid) endpoint node_id))
  | none =>
    let drawn := reserve_request_id st node_id
    let st2 := send_message drawn.2 (OutboundMessage.mk (mk drawn.1) endpoint node_id)
    (drawn.1, release_request_id st2 node_id drawn.1)

/-- Client.send_ping (client.py lines 184-195). -/
def send_ping (st : ClientState) (endpoint : Endpoint) (node_id : NodeID)
    (request_id : Option Nat) : Nat × ClientState :=
  with_request_id st endpoint node_id request_id
    (fun rid => Message.ping rid st.enr_seq)

/-- Client.send_pong (client.py lines 197-210): echoes the incoming request id
and reports the local ENR sequence number and the peer's endpoint. -/
def send_pong (st : ClientState) (endpoint : Endpoint) (node_id : NodeID)
    (request_id : Nat) : ClientState :=
  send_message st
    (OutboundMessage.mk
      (Message.pong request_id st.enr_seq endpoint.ip_address endpoint.port)
      endpoint node_id)

/-- Client.send_find_nodes (client.py lines 212-226). -/
def send_find_nodes (st : ClientState) (endpoint : Endpoint) (node_id : NodeID)
    (distances : List Nat) (request_id : Option Nat) : Nat × ClientState :=
  with_request_id st endpoint node_id request_id
    (fun rid => Message.findNode rid distances)

/-- Client.send_talk_request (client.py lines 248-265). -/
def send_talk_request (st : ClientState) (endpoint : Endpoint) (node_id : NodeID)
    (protocol : Bytes) (request : Bytes) (request_id : Option Nat) : Nat × ClientState :=
  with_request_id st endpoint node_id request_id
    (fun rid => Message.talkRequest rid protocol request)

/-- Client.send_register_topic (client.py lines 275-293). -/
def send_register_topic (st : ClientState) (endpoint : Endpoint) (node_id : NodeID)
    (topic : Bytes) (enr : ENR) (ticket : Bytes) (request_id : Option Nat) :
    Nat × ClientState :=
  with_request_id st endpoint node_id request_id
    (fun rid => Message.registerTopic rid topic enr ticket)

/-- Client.send_topic_query (client.py lines 317-330). -/
def send_topic_query (st : ClientState) (endpoint : Endpoint) (node_id : NodeID)
    (topic : Bytes) (request_id : Option Nat) : Nat × ClientState :=
  with_request_id st endpoint node_id request_id
    (fun rid => Message.topicQuery rid topic)

/-- Modelled from the spec: `partition_enrs(enrs, max_payload_size)`
(ddht/enr.py, not under src) partitions the sequence into order-preserving
batches whose summed encoded sizes each fit under the payload bound, closing
the current batch when the next record would overflow it; per spec section 9,
empty input yields no batches (the source emits no messages and returns 0).
The accumulator `cur` holds the current batch in reverse. -/
def partition_go (max_payload_size : Nat) (cur : List ENR) (cur_size : Nat) :
    List ENR → List (List ENR)
  | [] =>
    match cur with
    | [] => []
    | _ :: _ => [cur.reverse]
  | e :: rest =>
    match cur with
    | [] => partition_go max_payload_size [e] e.size rest
    | _ :: _ =>
      if max_payload_size < cur_size + e.size then
        cur.reverse :: partition_go max_payload_size [e] e.size rest
      else
        partition_go max_payload_size (e :: cur) (cur_size + e.size) rest

/-- Modelled from the spec: entry point of `partition_enrs`. -/
def partition_enrs (enrs : List ENR) (max_payload_size : Nat) : List (List ENR) :=
  partition_go max_payload_size [] 0 enrs

/-- FOUND_NODES_MAX_PAYLOAD_SIZE (ddht/v5_1/constants.py, not under src;
value from the spec: 1200 bytes of ENR payload). -/
def FOUND_NODES_MAX_PAYLOAD_SIZE : Nat := 1200

/-- Client.send_found_nodes (client.py lines 228-246): partition the ENRs,
emit one FoundNodes message per batch, each carrying the caller's request id
and `total = num_batches`, and return the batch count. -/
def send_found_nodes (st : ClientState) (endpoint : Endpoint) (node_id : NodeID)
    (enrs : List ENR) (request_id : Nat) : Nat × ClientState :=
  let enr_batches := partition_enrs enrs FOUND_NODES_MAX_PAYLOAD_SIZE
  let num_batches := enr_batches.length
  let st2 := enr_batches.foldl
    (fun s batch =>
      send_message s
        (OutboundMessage.mk (Message.foundNodes request_id num_batches batch)
          endpoint node_id))
    st
  (num_batches, st2)

/-! ## Facade lemmas and theorems (C3, C4, C9, C10) -/

theorem partition_go_flatten (max_payload_size : Nat) :
    ∀ (l cur : List ENR) (cur_size : Nat),
      (partition_go max_payload_size cur cur_size l).flatten = cur.reverse ++ l := by
  intro l
  induction l with
  | nil =>
    intro cur cur_size
    cases cur <;> simp [partition_go]
  | cons e rest ih =>
    intro cur cur_size
    cases cur with
    | nil => simp [partition_go, ih]
    | cons c cs =>
      by_cases h : max_payload_size < cur_size + e.size
      · simp [partition_go, h, ih]
      · simp [partition_go, h, ih]

/-- Concatenating the batches of `partition_enrs` restores the input. -/
theorem partition_enrs_flatten (enrs : List ENR) (max_payload_size : Nat) :
    (partition_enrs enrs max_payload_size).flatten = enrs := by
  simpa using partition_go_flatten max_payload_size enrs [] 0

theorem send_found_nodes_foldl_outbound (endpoint : Endpoint) (node_id : NodeID)
    (request_id num_batches : Nat) :
    ∀ (batches : List (List ENR)) (st : ClientState),
      (batches.foldl
        (fun s batch =>
          send_message s
            (OutboundMessage.mk (Message.foundNodes request_id num_batches batch)
              endpoint node_id))
        st) =
      ClientState.mk st.enr_seq st.reserved st.rng
        (st.outbound ++ batches.map
          (fun batch =>
            OutboundMessage.mk (Message.foundNodes request_id num_batches batch)
              endpoint node_id)) := by
  intro batches
  induction batches with
  | nil => intro st; simp [send_message]
  | cons b bs ih =>
    intro st
    rw [List.foldl_cons, ih]
    simp [send_message]

/-- C3 (code evaluation at the failing input): on the empty ENR sequence,
`send_found_nodes` emits no FoundNodes message at all and returns 0 — not one
message with `total = 1` and return value 1 as the claim states. -/
theorem send_found_nodes_empty_emits_nothing
    (st : ClientState) (endpoint : Endpoint) (node_id : NodeID) (request_id : Nat) :
    send_found_nodes st endpoint node_id [] request_id = (0, st) := by
  cases st
  rfl

/-- C4: for every non-empty ENR sequence, `send_found_nodes` emits exactly one
FoundNodes message per batch of the partition under
FOUND_NODES_MAX_PAYLOAD_SIZE (in partition order), every emitted message
carries the caller's request id and `total` equal to the number of batches,
the concatenation of the emitted batches equals the input sequence, the batch
count is at least one, and the return value is the batch count. -/
theorem send_found_nodes_partitions
    (st : ClientState) (endpoint : Endpoint) (node_id : NodeID)
    (enrs : List ENR) (request_id : Nat) (h : enrs ≠ []) :
    (send_found_nodes st endpoint node_id enrs request_id).1 =
      (partition_enrs enrs FOUND_NODES_MAX_PAYLOAD_SIZE).length ∧
    (send_found_nodes st endpoint node_id enrs request_id).2.outbound =
      st.outbound ++ (partition_enrs enrs FOUND_NODES_MAX_PAYLOAD_SIZE).map
        (fun batch =>
          OutboundMessage.mk
            (Message.foundNodes request_id
              (partition_enrs enrs FOUND_NODES_MAX_PAYLOAD_SIZE).length batch)
            endpoint node_id) ∧
    (partition_enrs enrs FOUND_NODES_MAX_PAYLOAD_SIZE).flatten = enrs ∧
    1 ≤ (partition_enrs enrs FOUND_NODES_MAX_PAYLOAD_SIZE).length := by
  refine ⟨rfl, ?_, partition_enrs_flatten enrs _, ?_⟩
  · simp [send_found_nodes, send_found_nodes_foldl_outbound]
  · rcases hp : partition_enrs enrs FOUND_NODES_MAX_PAYLOAD_SIZE with _ | ⟨b, bs⟩
    · exfalso
      apply h
      have hj := partition_enrs_flatten enrs FOUND_NODES_MAX_PAYLOAD_SIZE
      rw [hp] at hj
      simpa using hj.symm
    · simp

/-- C4 witness: five ENRs of encoded size 300 each split into a batch of four
and a batch of one under the 1200-byte bound. -/
theorem send_found_nodes_partitions_witness :
    ([ENR.mk 1 1 300, ENR.mk 2 1 300, ENR.mk 3 1 300, ENR.mk 4 1 300,
      ENR.mk 5 1 300] : List ENR) ≠ [] ∧
    ((send_found_nodes (ClientState.mk 9 [] [] []) (Endpoint.mk 167772161 30303) 42
        [ENR.mk 1 1 300, ENR.mk 2 1 300, ENR.mk 3 1 300, ENR.mk 4 1 300,
         ENR.mk 5 1 300] 7).1 =
      (partition_enrs
        [ENR.mk 1 1 300, ENR.mk 2 1 300, ENR.mk 3 1 300, ENR.mk 4 1 300,
         ENR.mk 5 1 300] FOUND_NODES_MAX_PAYLOAD_SIZE).length ∧
    (send_found_nodes (ClientState.mk 9 [] [] []) (Endpoint.mk 167772161 30303) 42
        [ENR.mk 1 1 300, ENR.mk 2 1 300, ENR.mk 3 1 300, ENR.mk 4 1 300,
         ENR.mk 5 1 300] 7).2.outbound =
      (ClientState.mk 9 [] [] []).outbound ++
        (partition_enrs
          [ENR.mk 1 1 300, ENR.mk 2 1 300, ENR.mk 3 1 300, ENR.mk 4 1 300,
           ENR.mk 5 1 300] FOUND_NODES_MAX_PAYLOAD_SIZE).map
          (fun batch =>
            OutboundMessage.mk
              (Message.foundNodes 7
                (partition_enrs
                  [ENR.mk 1 1 300, ENR.mk 2 1 300, ENR.mk 3 1 300, ENR.mk 4 1 300,
                   ENR.mk 5 1 300] FOUND_NODES_MAX_PAYLOAD_SIZE).length batch)
              (Endpoint.mk 167772161 30303) 42) ∧
    (partition_enrs
      [ENR.mk 1 1 300, ENR.mk 2 1 300, ENR.mk 3 1 300, ENR.mk 4 1 300,
       ENR.mk 5 1 300] FOUND_NODES_MAX_PAYLOAD_SIZE).flatten =
      [ENR.mk 1 1 300, ENR.mk 2 1 300, ENR.mk 3 1 300, ENR.mk 4 1 300,
       ENR.mk 5 1 300] ∧
    1 ≤ (partition_enrs
      [ENR.mk 1 1 300, ENR.mk 2 1 300, ENR.mk 3 1 300, ENR.mk 4 1 300,
       ENR.mk 5 1 300] FOUND_NODES_MAX_PAYLOAD_SIZE).length) :=
  ⟨by decide,
   send_found_nodes_partitions (ClientState.mk 9 [] [] [])
     (Endpoint.mk 167772161 30303) 42
     [ENR.mk 1 1 300, ENR.mk 2 1 300, ENR.mk 3 1 300, ENR.mk 4 1 300,
      ENR.mk 5 1 300] 7 (by decide)⟩

/-- C9: for every endpoint, node id and request id, `send_pong` constructs and
dispatches exactly one PongMessage whose request id is the incoming one echoed
verbatim (no reservation is taken: the reservation set and randomness stream
are untouched), whose `enr_seq` is the local ENR's current sequence number,
and whose `packet_ip` and `packet_port` are the peer endpoint's address and
port. -/
theorem send_pong_echoes_request_and_endpoint
    (st : ClientState) (endpoint : Endpoint) (node_id : NodeID) (request_id : Nat) :
    send_pong st endpoint node_id request_id =
      ClientState.mk st.enr_seq st.reserved st.rng
        (st.outbound ++
          [OutboundMessage.mk
            (Message.pong request_id st.enr_seq endpoint.ip_address endpoint.port)
            endpoint node_id]) := by
  cases st
  rfl

/-- C10: every request-sending operation taking an optional request id
(`send_ping`, `send_find_nodes`, `send_talk_request`, `send_register_topic`,
`send_topic_query`), when handed an explicit request id R, bypasses the
dispatcher's reservation machinery entirely: R is used verbatim in the
constructed message, the reservation set and the randomness stream are
untouched on every path (no uniqueness check against in-flight requests, even
when R is already reserved for that peer, and nothing is released on exit),
and the operation returns R. -/
theorem explicit_request_id_bypasses_reservation
    (st : ClientState) (endpoint : Endpoint) (node_id : NodeID) (R : Nat)
    (distances : List Nat) (protocol request : Bytes)
    (topic : Bytes) (enr : ENR) (ticket : Bytes) :
    send_ping st endpoint node_id (some R) =
      (R, ClientState.mk st.enr_seq st.reserved st.rng
        (st.outbound ++
          [OutboundMessage.mk (Message.ping R st.enr_seq) endpoint node_id])) ∧
    send_find_nodes st endpoint node_id distances (some R) =
      (R, ClientState.mk st.enr_seq st.reserved st.rng
        (st.outbound ++
          [OutboundMessage.mk (Message.findNode R distances) endpoint node_id])) ∧
    send_talk_request st endpoint node_id protocol request (some R) =
      (R, ClientState.mk st.enr_seq st.reserved st.rng
        (st.outbound ++
          [OutboundMessage.mk (Message.talkRequest R protocol request)
            endpoint node_id])) ∧
    send_register_topic st endpoint node_id topic enr ticket (some R) =
      (R, ClientState.mk st.enr_seq st.reserved st.rng
        (st.outbound ++
          [OutboundMessage.mk (Message.registerTopic R topic enr ticket)
            endpoint node_id])) ∧
    send_topic_query st endpoint node_id topic (some R) =
      (R, ClientState.mk st.enr_seq st.reserved st.rng
        (st.outbound ++
          [OutboundMessage.mk (Message.topicQuery R topic) endpoint node_id])) := by
  cases st
  exact ⟨rfl, rfl, rfl, rfl, rfl⟩

/-! ## Request/response operations (client.py lines 335-377)

`subscribe_request` and the trio deadline are dispatcher/runtime machinery
not under src, so the subscription is modelled from the spec: it delivers the
matching inbound messages in arrival order, each paired with its arrival time
(seconds since the operation started); `trio.fail_after(d)` makes a receive
fail with the timeout error when no further message arrives by the absolute
deadline `d`.  The `async with` subscription scope is exited on every path,
which the outcome records as `subscription_disposed`. -/

/-- Error kinds surfaced by the request/response operations.
`requestTimeout` is the deadline error raised by `trio.fail_after`;
`genericException` is a bare Python `Exception` raise;
`protocolViolation` is the error kind of spec section 7. -/
inductive ClientError where
  | requestTimeout
  | protocolViolation
  | genericException
  | cancelled
deriving DecidableEq, Repr

/-- REQUEST_RESPONSE_TIMEOUT (ddht/v5_1/constants.py, not under src; value
from the spec: 10 seconds). -/
def REQUEST_RESPONSE_TIMEOUT : Nat := 10

/-- InboundMessage (ddht.base_message): a typed message plus the sender's
endpoint and established node id. -/
structure InboundMessage (M : Type) where
  message : M
  sender_endpoint : Endpoint
  sender_node_id : NodeID
deriving DecidableEq, Repr

/-- FoundNodesMessage as consumed by `Client.find_nodes`: request id, the
`total` message count of the fragmented response, and an ENR batch. -/
structure FoundNodesMessage where
  request_id : Nat
  total : Nat
  enrs : List ENR
deriving DecidableEq, Repr

/-- PongMessage as consumed by `Client.ping`. -/
structure PongMessage where
  request_id : Nat
  enr_seq : Nat
  packet_ip : Nat
  packet_port : Nat
deriving DecidableEq, Repr

/-- Modelled from the spec: one `subscription.receive()` under an absolute
deadline.  The next delivered message is yielded if it arrives by the
deadline; otherwise (including when no further message ever arrives) the
deadline fires and the receive fails with the timeout error. -/
def receiveBefore {α : Type} (deadline : Nat) :
    List (Nat × α) → Except ClientError (α × List (Nat × α))
  | [] => Except.error ClientError.requestTimeout
  | (t, m) :: rest =>
    if t ≤ deadline then Except.ok (m, rest)
    else Except.error ClientError.requestTimeout

/-- `n` consecutive `subscription.receive()` calls under one deadline
(the `for _ in range(total - 1)` loop of `Client.find_nodes`). -/
def receiveCount {α : Type} (deadline : Nat) :
    Nat → List (Nat × α) → Except ClientError (List α)
  | 0, _ => Except.ok []
  | n + 1, sub =>
    match receiveBefore deadline sub with
    | Except.error e => Except.error e
    | Except.ok (m, rest) =>
      match receiveCount deadline n rest with
      | Except.error e => Except.error e
      | Except.ok tail => Except.ok (m :: tail)

/-- Outcome of a request/response operation: the surfaced result plus the
fact that the subscription scope was exited (spec: the subscription is
disposed on success, timeout and error alike). -/
structure OpOutcome (α : Type) where
  result : Except ClientError α
  subscription_disposed : Bool
deriving Repr

/-- The `async with subscribe_request(...)` scope: the body runs and the
subscription is unregistered on every exit path. -/
def with_subscription {α : Type} (body : Except ClientError α) : OpOutcome α :=
  OpOutcome.mk body true

/-- Body of Client.ping (client.py lines 335-348): one receive under the
REQUEST_RESPONSE_TIMEOUT deadline. -/
def ping_body (sub : List (Nat × InboundMessage PongMessage)) :
    Except ClientError (InboundMessage PongMessage) :=
  match receiveBefore REQUEST_RESPONSE_TIMEOUT sub with
  | Except.error e => Except.error e
  | Except.ok (response, _) => Except.ok response

/-- Client.ping over the messages delivered by its subscription. -/
def ping (sub : List (Nat × InboundMessage PongMessage)) :
    OpOutcome (InboundMessage PongMessage) :=
  with_subscription (ping_body sub)

/-- Body of Client.find_nodes (client.py lines 360-377): receive the head
response, read `total`; on `total == 1` return the head alone, on `total > 1`
receive `total - 1` further messages, otherwise raise the bare
`Exception("Invalid total counter in response")`. -/
def find_nodes_body (sub : List (Nat × InboundMessage FoundNodesMessage)) :
    Except ClientError (List (InboundMessage FoundNodesMessage)) :=
  match receiveBefore REQUEST_RESPONSE_TIMEOUT sub with
  | Except.error e => Except.error e
  | Except.ok (head_response, rest) =>
    if head_response.message.total = 1 then
      Except.ok [head_response]
    else if 1 < head_response.message.total then
      match receiveCount REQUEST_RESPONSE_TIMEOUT
          (head_response.message.total - 1) rest with
      | Except.error e => Except.error e
      | Except.ok tail_responses => Except.ok (head_response :: tail_responses)
    else
      Except.error ClientError.genericException

/-- Client.find_nodes over the messages delivered by its subscription. -/
def find_nodes (sub : List (Nat × InboundMessage FoundNodesMessage)) :
    OpOutcome (List (InboundMessage FoundNodesMessage)) :=
  with_subscription (find_nodes_body sub)

/-- Head of the subscription stream arrives only after the deadline (or not
at all): the situation in which the deadline expires before the expected
response. -/
def head_arrives_after {α : Type} (deadline : Nat) : List (Nat × α) → Prop
  | [] => True
  | p :: _ => deadline < p.1

/-! ## Request/response theorems (C1, C2, C7) -/

theorem receiveCount_ok {α : Type} (deadline : Nat) :
    ∀ (n : Nat) (sub : List (Nat × α)),
      n ≤ sub.length →
      (∀ p ∈ sub.take n, p.1 ≤ deadline) →
      receiveCount deadline n sub = Except.ok ((sub.take n).map Prod.snd) := by
  intro n
  induction n with
  | zero => intro sub _ _; rfl
  | succ k ih =>
    intro sub hlen htimes
    cases sub with
    | nil => simp at hlen
    | cons p rest =>
      obtain ⟨t, m⟩ := p
      have ht : t ≤ deadline := htimes (t, m) (by simp)
      have hrest : k ≤ rest.length := by simpa using hlen
      have htimes2 : ∀ q ∈ rest.take k, q.1 ≤ deadline := by
        intro q hq
        exact htimes q (by simp only [List.take_succ_cons]; exact List.mem_cons_of_mem _ hq)
      simp [receiveCount, receiveBefore, ht, ih rest hrest htimes2]

/-- C1: when the first message delivered by the subscription arrives within
the deadline and carries `total = t` with `t >= 1`, and the next `t - 1`
delivered messages also arrive within the deadline, `find_nodes` returns
exactly `t` InboundMessage values: the head response first, followed by those
next `t - 1` messages in the order received. -/
theorem find_nodes_returns_exactly_total
    (t0 : Nat) (m0 : InboundMessage FoundNodesMessage)
    (rest : List (Nat × InboundMessage FoundNodesMessage)) (total : Nat)
    (h_time : t0 ≤ REQUEST_RESPONSE_TIMEOUT)
    (h_total : m0.message.total = total)
    (h_one : 1 ≤ total)
    (h_len : total - 1 ≤ rest.length)
    (h_times : ∀ p ∈ rest.take (total - 1), p.1 ≤ REQUEST_RESPONSE_TIMEOUT) :
    find_nodes ((t0, m0) :: rest) =
      OpOutcome.mk
        (Except.ok (m0 :: (rest.take (total - 1)).map Prod.snd)) true ∧
    (m0 :: (rest.take (total - 1)).map Prod.snd).length = total := by
  have hlen2 : (rest.take (total - 1)).length = total - 1 := by
    simp only [List.length_take]
    omega
  constructor
  · unfold find_nodes with_subscription find_nodes_body
    rcases Nat.lt_or_ge 1 total with hgt | hle
    · have hne : ¬ m0.message.total = 1 := by omega
      have hgt2 : 1 < m0.message.total := by omega
      have hne2 : ¬ total = 1 := by omega
      simp [receiveBefore, h_time, hne, hgt2, h_total, hne2, hgt,
        receiveCount_ok REQUEST_RESPONSE_TIMEOUT (total - 1) rest h_len h_times]
    · have h1 : total = 1 := by omega
      have he : m0.message.total = 1 := by omega
      simp [receiveBefore, h_time, he, h1]
  · simp only [List.length_cons, List.length_map, hlen2]
    omega

/-- C1 witness inputs: a two-part FoundNodes response. -/
def c1_head : InboundMessage FoundNodesMessage :=
  InboundMessage.mk (FoundNodesMessage.mk 7 2 [ENR.mk 1 5 100]) (Endpoint.mk 1 9000) 21

/-- C1 witness inputs: the tail message of the two-part response. -/
def c1_tail : InboundMessage FoundNodesMessage :=
  InboundMessage.mk (FoundNodesMessage.mk 7 2 [ENR.mk 2 6 100]) (Endpoint.mk 1 9000) 21

/-- C1 witness: the two-part response is returned whole, in order. -/
theorem find_nodes_returns_exactly_total_witness :
    ((0 ≤ REQUEST_RESPONSE_TIMEOUT) ∧ c1_head.message.total = 2 ∧ 1 ≤ 2 ∧
      2 - 1 ≤ ([(1, c1_tail)] : List (Nat × InboundMessage FoundNodesMessage)).length ∧
      (∀ p ∈ ([(1, c1_tail)] : List (Nat × InboundMessage FoundNodesMessage)).take (2 - 1),
        p.1 ≤ REQUEST_RESPONSE_TIMEOUT)) ∧
    (find_nodes ((0, c1_head) :: [(1, c1_tail)]) =
      OpOutcome.mk
        (Except.ok (c1_head ::
          (([(1, c1_tail)] : List (Nat × InboundMessage FoundNodesMessage)).take
            (2 - 1)).map Prod.snd)) true ∧
    (c1_head ::
      (([(1, c1_tail)] : List (Nat × InboundMessage FoundNodesMessage)).take
        (2 - 1)).map Prod.snd).length = 2) :=
  ⟨⟨by decide, by decide, by decide, by decide, by decide⟩,
   find_nodes_returns_exactly_total 0 c1_head [(1, c1_tail)] 2
     (by decide) (by decide) (by decide) (by decide) (by decide)⟩

/-- C2 amended: when the first message delivered within the deadline carries
`total == 0`, `find_nodes` fails with the bare generic exception the source
raises (client.py line 377), surfaced to the caller, and the subscription is
disposed. -/
theorem find_nodes_total_zero_raises_generic
    (t0 : Nat) (m0 : InboundMessage FoundNodesMessage)
    (rest : List (Nat × InboundMessage FoundNodesMessage))
    (h_time : t0 ≤ REQUEST_RESPONSE_TIMEOUT)
    (h_total : m0.message.total = 0) :
    find_nodes ((t0, m0) :: rest) =
      OpOutcome.mk (Except.error ClientError.genericException) true := by
  unfold find_nodes with_subscription find_nodes_body
  simp [receiveBefore, h_time, h_total]

/-- C2 counterexample input: a FoundNodes response with `total = 0`. -/
def c2_zero_total : InboundMessage FoundNodesMessage :=
  InboundMessage.mk (FoundNodesMessage.mk 7 0 []) (Endpoint.mk 1 9000) 21

/-- C2 counterexample: on a first response with `total == 0` the operation
does not fail with ProtocolViolation as the claim states; it fails with the
bare generic exception. -/
theorem find_nodes_total_zero_not_protocol_violation :
    find_nodes [(0, c2_zero_total)] ≠
      OpOutcome.mk (Except.error ClientError.protocolViolation) true ∧
    find_nodes [(0, c2_zero_total)] =
      OpOutcome.mk (Except.error ClientError.genericException) true := by
  refine ⟨?_, rfl⟩
  intro hcontra
  rw [show find_nodes [(0, c2_zero_total)] =
    OpOutcome.mk (Except.error ClientError.genericException) true from rfl] at hcontra
  simp at hcontra

/-- C2 amended witness: the generic-exception outcome at a concrete input. -/
theorem find_nodes_total_zero_raises_generic_witness :
    ((0 ≤ REQUEST_RESPONSE_TIMEOUT) ∧ c2_zero_total.message.total = 0) ∧
    find_nodes ((0, c2_zero_total) :: []) =
      OpOutcome.mk (Except.error ClientError.genericException) true :=
  ⟨⟨by decide, by decide⟩,
   find_nodes_total_zero_raises_generic 0 c2_zero_total [] (by decide) (by decide)⟩

/-- C7: both request/response operations (`ping`, `find_nodes`) wrap their
receives in a deadline of REQUEST_RESPONSE_TIMEOUT = 10 seconds; when the
deadline expires before the expected response arrives, the operation fails
with the timeout error and the subscription is disposed. -/
theorem request_response_deadline_timeout
    (subP : List (Nat × InboundMessage PongMessage))
    (subF : List (Nat × InboundMessage FoundNodesMessage))
    (hP : head_arrives_after REQUEST_RESPONSE_TIMEOUT subP)
    (hF : head_arrives_after REQUEST_RESPONSE_TIMEOUT subF) :
    REQUEST_RESPONSE_TIMEOUT = 10 ∧
    ping subP = OpOutcome.mk (Except.error ClientError.requestTimeout) true ∧
    find_nodes subF = OpOutcome.mk (Except.error ClientError.requestTimeout) true := by
  refine ⟨rfl, ?_, ?_⟩
  · cases subP with
    | nil => rfl
    | cons p rest =>
      obtain ⟨t, m⟩ := p
      simp only [head_arrives_after] at hP
      have ht : ¬ t ≤ REQUEST_RESPONSE_TIMEOUT := by omega
      unfold ping with_subscription ping_body
      simp [receiveBefore, ht]
  · cases subF with
    | nil => rfl
    | cons p rest =>
      obtain ⟨t, m⟩ := p
      simp only [head_arrives_after] at hF
      have ht : ¬ t ≤ REQUEST_RESPONSE_TIMEOUT := by omega
      unfold find_nodes with_subscription find_nodes_body
      simp [receiveBefore, ht]

/-- C7 witness input: a FoundNodes response arriving one second too late. -/
def c7_late : InboundMessage FoundNodesMessage :=
  InboundMessage.mk (FoundNodesMessage.mk 9 1 []) (Endpoint.mk 1 9000) 33

/-- C7 witness: a ping whose subscription never delivers and a find_nodes
whose first response arrives at t = 11 both time out. -/
theorem request_response_deadline_timeout_witness :
    head_arrives_after REQUEST_RESPONSE_TIMEOUT
      ([] : List (Nat × InboundMessage PongMessage)) ∧
    head_arrives_after REQUEST_RESPONSE_TIMEOUT [(11, c7_late)] ∧
    (REQUEST_RESPONSE_TIMEOUT = 10 ∧
      ping [] = OpOutcome.mk (Except.error ClientError.requestTimeout) true ∧
      find_nodes [(11, c7_late)] =
        OpOutcome.mk (Except.error ClientError.requestTimeout) true) :=
  ⟨trivial,
   by show REQUEST_RESPONSE_TIMEOUT < 11; decide,
   request_response_deadline_timeout [] [(11, c7_late)] trivial
     (by show REQUEST_RESPONSE_TIMEOUT < 11; decide)⟩
